import Mathlib

/-!
Shallow embedding of the trade-execution and balance-reconciliation pipeline
of src/server.js, together with theorems settling the specification claims.

Numeric amounts are modelled as exact rationals; raw integer unit counts as
integers; external calls (virtual-balance fetch, holdings fetch, metadata
endpoints, signing, execution submission) are passed in as explicit
parameters, a failed call being `none`.
-/

namespace Nexgent

/-- The fixed well-known mint identifier of the native asset (SOL), as the
string constant used throughout src/server.js. -/
def SOL_MINT : String := "So11111111111111111111111111111111111111112"

/-- Embedding of `isExitTransaction` (src/server.js line 325): a swap is an
exit when the output mint is the SOL mint and the input mint is not. -/
def isExitTransaction (inputMint outputMint : String) : Bool :=
  outputMint == SOL_MINT && inputMint != SOL_MINT

/-- Character-wise lower-casing, modelling the JavaScript `toLowerCase()`
calls on the ASCII mint symbols handled by the server. -/
def toLowerCase (s : String) : String := String.mk (s.data.map Char.toLower)

/-- Modelling of the JavaScript `endsWith` used by the pump heuristic at
line 616. -/
def jsEndsWith (s endStr : String) : Bool := endStr.data.isSuffixOf s.data

/-- Contiguous-sublist check over characters, the core of the JavaScript
`includes` used by the pump heuristic at line 616. -/
def listContainsSub (needle : List Char) : List Char → Bool
  | [] => needle.isEmpty
  | c :: cs => needle.isPrefixOf (c :: cs) || listContainsSub needle cs

/-- Modelling of the JavaScript `includes` on strings. -/
def jsIncludes (s sub : String) : Bool := listContainsSub sub.data s.data

/-- One entry of the virtual agent balance list returned by the Nexgent
endpoint (field names as in the JSON payload read at lines 133-140). -/
structure VirtualBalanceEntry where
  token : String
  symbol : String
  balance : ℚ
deriving DecidableEq, Repr

/-- Embedding of `findVirtualTokenBalance` (line 131): look up by mint first,
fall back to a case-insensitive symbol match when a nonempty symbol is given,
and yield 0 when no entry matches. -/
def findVirtualTokenBalance (balances : List VirtualBalanceEntry)
    (tokenMint : String) (tokenSymbol : Option String) : ℚ :=
  match balances.find? (fun b => b.token == tokenMint) with
  | some virtualToken => virtualToken.balance
  | none =>
    match tokenSymbol with
    | some sym =>
      if sym ≠ "" then
        match balances.find? (fun b => toLowerCase b.symbol == toLowerCase sym) with
        | some virtualToken => virtualToken.balance
        | none => 0
      else 0
    | none => 0

/-- The record returned by `getActualTokenBalance` (lines 249-270): raw unit
amount, UI amount, resolved decimals, and whether the mint was present in the
wallet holdings list. -/
structure ActualBalanceEntry where
  amount : ℕ
  uiAmount : ℚ
  decimals : ℕ
  found : Bool
deriving DecidableEq, Repr

/-- Exit strategy labels, exactly the strategy strings assigned in
`calculateExitStrategy` (lines 379, 387, 396, 404, 416). -/
inductive ExitStrategyKind
  | FALLBACK_EXIT_ALL
  | FALLBACK_EXIT_WEBHOOK
  | FULL_EXIT_ZERO_VIRTUAL
  | FULL_EXIT_COMPLETE
  | PARTIAL_EXIT
deriving DecidableEq, Repr

/-- The successful return object of `calculateExitStrategy` (lines 438-450). -/
structure ExitPlan where
  strategy : ExitStrategyKind
  percentageToSell : ℚ
  amountToSellUI : ℚ
  amountInLamports : ℤ
  actualBalance : ℚ
  virtualBalance : ℚ
  webhookAmount : ℚ
  willSellAll : Bool
  virtualBalanceAvailable : Bool
  fallbackMode : Bool
deriving DecidableEq, Repr

/-- The value the local `virtualBalance` holds after the try/catch at lines
340-358: the looked-up balance when `getVirtualAgentBalance` succeeded,
zero when it threw. -/
def fetchedVirtualBalance (virtualFetchResult : Option (List VirtualBalanceEntry))
    (tokenMint : String) (tokenSymbol : Option String) : ℚ :=
  match virtualFetchResult with
  | some virtualBalances => findVirtualTokenBalance virtualBalances tokenMint tokenSymbol
  | none => 0

/-- The strategy/percentage/amount selection chain of `calculateExitStrategy`
(lines 372-425), returning the triple
`(exitStrategy, percentageToSell, amountToSell)`. -/
def exitBranch (virtualBalanceFetchSuccess : Bool) (virtualBalance : ℚ)
    (webhookAmount : ℚ) (actualUiAmount : ℚ) : ExitStrategyKind × ℚ × ℚ :=
  if virtualBalanceFetchSuccess = false then
    if actualUiAmount ≤ webhookAmount then
      (ExitStrategyKind.FALLBACK_EXIT_ALL, 1, actualUiAmount)
    else
      (ExitStrategyKind.FALLBACK_EXIT_WEBHOOK,
        webhookAmount / actualUiAmount, webhookAmount)
  else if virtualBalance = 0 then
    (ExitStrategyKind.FULL_EXIT_ZERO_VIRTUAL, 1, actualUiAmount)
  else if webhookAmount ≥ virtualBalance then
    (ExitStrategyKind.FULL_EXIT_COMPLETE, 1, actualUiAmount)
  else
    (ExitStrategyKind.PARTIAL_EXIT, webhookAmount / virtualBalance,
      actualUiAmount * (webhookAmount / virtualBalance))

/-- Embedding of `calculateExitStrategy` (lines 331-459).
`virtualFetchResult` is the outcome of `getVirtualAgentBalance` (`none` when
that call threw, in which case the code zeroes `virtualBalance` and clears the
success flag); `actualFetchResult` is the outcome of `getActualTokenBalance`
(`none` when it threw).  A `none` result models the catch-all returning
`success: false`. -/
def calculateExitStrategy (webhookAmount : ℚ) (tokenMint : String)
    (tokenSymbol : Option String)
    (virtualFetchResult : Option (List VirtualBalanceEntry))
    (actualFetchResult : Option ActualBalanceEntry) : Option ExitPlan :=
  let virtualBalance : ℚ := fetchedVirtualBalance virtualFetchResult tokenMint tokenSymbol
  let virtualBalanceFetchSuccess : Bool := virtualFetchResult.isSome
  match actualFetchResult with
  | none => none
  | some actualBalance =>
    if actualBalance.found = false ∨ actualBalance.uiAmount = 0 then
      none
    else
      let res : ExitStrategyKind × ℚ × ℚ :=
        exitBranch virtualBalanceFetchSuccess virtualBalance webhookAmount
          actualBalance.uiAmount
      some {
        strategy := res.1
        percentageToSell := res.2.1
        amountToSellUI := res.2.2
        amountInLamports := ⌊res.2.2 * (10 : ℚ) ^ actualBalance.decimals⌋
        actualBalance := actualBalance.uiAmount
        virtualBalance := virtualBalance
        webhookAmount := webhookAmount
        willSellAll := decide (res.2.1 ≥ 99 / 100)
        virtualBalanceAvailable := virtualBalanceFetchSuccess
        fallbackMode := !virtualBalanceFetchSuccess }

/-- The plan literal produced by `calculateExitStrategy` once the no-balance
guard has passed; used to state the inversion lemma. -/
def mkExitPlan (webhookAmount : ℚ) (tokenMint : String) (tokenSymbol : Option String)
    (virtualFetchResult : Option (List VirtualBalanceEntry))
    (actualBalance : ActualBalanceEntry) : ExitPlan :=
  let virtualBalance := fetchedVirtualBalance virtualFetchResult tokenMint tokenSymbol
  let res := exitBranch virtualFetchResult.isSome virtualBalance webhookAmount
    actualBalance.uiAmount
  { strategy := res.1
    percentageToSell := res.2.1
    amountToSellUI := res.2.2
    amountInLamports := ⌊res.2.2 * (10 : ℚ) ^ actualBalance.decimals⌋
    actualBalance := actualBalance.uiAmount
    virtualBalance := virtualBalance
    webhookAmount := webhookAmount
    willSellAll := decide (res.2.1 ≥ 99 / 100)
    virtualBalanceAvailable := virtualFetchResult.isSome
    fallbackMode := !virtualFetchResult.isSome }

lemma calculateExitStrategy_inv {w : ℚ} {mint : String} {sym : Option String}
    {vf : Option (List VirtualBalanceEntry)} {a : ActualBalanceEntry}
    {plan : ExitPlan}
    (h : calculateExitStrategy w mint sym vf (some a) = some plan) :
    a.found = true ∧ a.uiAmount ≠ 0 ∧ plan = mkExitPlan w mint sym vf a := by
  simp only [calculateExitStrategy] at h
  rcases Decidable.em (a.found = false ∨ a.uiAmount = 0) with hg | hg
  · rw [if_pos hg] at h
    exact Option.noConfusion h
  · rw [if_neg hg] at h
    rw [Option.some.injEq] at h
    refine ⟨?_, fun e => hg (Or.inr e), h.symm⟩
    rcases Bool.eq_false_or_eq_true a.found with hf | hf
    · exact hf
    · exact absurd (Or.inl hf) hg

/-- Exhaustive description of the five branches of the strategy selection
chain at lines 372-425. -/
lemma exitBranch_cases (s : Bool) (V w aui : ℚ) :
    (s = false ∧ aui ≤ w ∧
      exitBranch s V w aui = (ExitStrategyKind.FALLBACK_EXIT_ALL, 1, aui)) ∨
    (s = false ∧ ¬ aui ≤ w ∧
      exitBranch s V w aui = (ExitStrategyKind.FALLBACK_EXIT_WEBHOOK, w / aui, w)) ∨
    (s = true ∧ V = 0 ∧
      exitBranch s V w aui = (ExitStrategyKind.FULL_EXIT_ZERO_VIRTUAL, 1, aui)) ∨
    (s = true ∧ V ≠ 0 ∧ w ≥ V ∧
      exitBranch s V w aui = (ExitStrategyKind.FULL_EXIT_COMPLETE, 1, aui)) ∨
    (s = true ∧ V ≠ 0 ∧ ¬ w ≥ V ∧
      exitBranch s V w aui =
        (ExitStrategyKind.PARTIAL_EXIT, w / V, aui * (w / V))) := by
  rcases Bool.eq_false_or_eq_true s with hs | hs <;> subst hs <;>
    simp only [exitBranch] <;> split_ifs with h1 h2 h3 <;> tauto

/-- Claim C1: for every exit computation with a positive actual balance and a
nonnegative requested amount, in every branch of `calculateExitStrategy` the
returned `amountToSellUI` never exceeds the actual wallet balance. -/
theorem exitPlan_never_oversells (w : ℚ) (mint : String) (sym : Option String)
    (vf : Option (List VirtualBalanceEntry)) (a : ActualBalanceEntry)
    (plan : ExitPlan) (hw : 0 ≤ w) (ha : 0 < a.uiAmount)
    (h : calculateExitStrategy w mint sym vf (some a) = some plan) :
    plan.amountToSellUI ≤ a.uiAmount := by
  obtain ⟨-, -, hp⟩ := calculateExitStrategy_inv h
  subst hp
  simp only [mkExitPlan]
  rcases exitBranch_cases vf.isSome (fetchedVirtualBalance vf mint sym) w a.uiAmount
    with ⟨-, hc, he⟩ | ⟨-, hc, he⟩ | ⟨-, -, he⟩ | ⟨-, -, -, he⟩ | ⟨-, -, hc, he⟩ <;>
    rw [he]
  · exact (not_le.mp hc).le
  · exact mul_le_of_le_one_right ha.le
      ((div_le_one (lt_of_le_of_lt hw (not_le.mp hc))).mpr (not_le.mp hc).le)

/-- Witness for C1 at Scenario 3 of the specification. -/
theorem exitPlan_never_oversells_witness :
    (⟨ExitStrategyKind.PARTIAL_EXIT, 1/2, 500, 500000000, 1000, 800, 400,
      false, true, false⟩ : ExitPlan).amountToSellUI ≤ (1000 : ℚ) :=
  exitPlan_never_oversells 400 "MINT" none (some [⟨"MINT", "MOCK", 800⟩])
    ⟨1000000000, 1000, 6, true⟩ _ (by norm_num) (by norm_num)
    (by simp only [calculateExitStrategy, exitBranch, fetchedVirtualBalance,
          findVirtualTokenBalance]
        norm_num)

/-- Claim C2: when the virtual-balance fetch fails, the plan is always one of
the two fallback strategies; with the actual balance at most the requested
amount it sells the full actual balance (`FALLBACK_EXIT_ALL`), otherwise it
sells exactly the requested amount with `percentageToSell` equal to
requested over actual (`FALLBACK_EXIT_WEBHOOK`). -/
theorem fallback_precedence (w : ℚ) (mint : String) (sym : Option String)
    (a : ActualBalanceEntry) (plan : ExitPlan)
    (h : calculateExitStrategy w mint sym none (some a) = some plan) :
    (plan.strategy = ExitStrategyKind.FALLBACK_EXIT_ALL ∨
      plan.strategy = ExitStrategyKind.FALLBACK_EXIT_WEBHOOK)
    ∧ (a.uiAmount ≤ w →
        plan.strategy = ExitStrategyKind.FALLBACK_EXIT_ALL ∧
        plan.percentageToSell = 1 ∧ plan.amountToSellUI = a.uiAmount)
    ∧ (¬ a.uiAmount ≤ w →
        plan.strategy = ExitStrategyKind.FALLBACK_EXIT_WEBHOOK ∧
        plan.amountToSellUI = w ∧
        plan.percentageToSell = w / a.uiAmount) := by
  obtain ⟨-, -, hp⟩ := calculateExitStrategy_inv h
  subst hp
  simp only [mkExitPlan, Option.isSome_none]
  rcases exitBranch_cases false (fetchedVirtualBalance none mint sym) w a.uiAmount
    with ⟨-, hc, he⟩ | ⟨-, hc, he⟩ | ⟨hs, -, -⟩ | ⟨hs, -⟩ | ⟨hs, -⟩
  · rw [he]
    exact ⟨Or.inl rfl, fun _ => ⟨rfl, rfl, rfl⟩, fun hn => absurd hc hn⟩
  · rw [he]
    exact ⟨Or.inr rfl, fun hle => absurd hle hc, fun _ => ⟨rfl, rfl, rfl⟩⟩
  · exact Bool.noConfusion hs
  · exact Bool.noConfusion hs
  · exact Bool.noConfusion hs

/-- Witness for C2 at Scenario 1 of the specification. -/
theorem fallback_precedence_witness :
    (((⟨ExitStrategyKind.FALLBACK_EXIT_ALL, 1, 1000, 1000000000, 1000, 0, 1500,
        true, false, true⟩ : ExitPlan).strategy = ExitStrategyKind.FALLBACK_EXIT_ALL ∨
      (⟨ExitStrategyKind.FALLBACK_EXIT_ALL, 1, 1000, 1000000000, 1000, 0, 1500,
        true, false, true⟩ : ExitPlan).strategy = ExitStrategyKind.FALLBACK_EXIT_WEBHOOK)
    ∧ ((1000 : ℚ) ≤ 1500 →
        (⟨ExitStrategyKind.FALLBACK_EXIT_ALL, 1, 1000, 1000000000, 1000, 0, 1500,
          true, false, true⟩ : ExitPlan).strategy = ExitStrategyKind.FALLBACK_EXIT_ALL ∧
        (⟨ExitStrategyKind.FALLBACK_EXIT_ALL, 1, 1000, 1000000000, 1000, 0, 1500,
          true, false, true⟩ : ExitPlan).percentageToSell = 1 ∧
        (⟨ExitStrategyKind.FALLBACK_EXIT_ALL, 1, 1000, 1000000000, 1000, 0, 1500,
          true, false, true⟩ : ExitPlan).amountToSellUI = 1000)
    ∧ (¬ (1000 : ℚ) ≤ 1500 →
        (⟨ExitStrategyKind.FALLBACK_EXIT_ALL, 1, 1000, 1000000000, 1000, 0, 1500,
          true, false, true⟩ : ExitPlan).strategy = ExitStrategyKind.FALLBACK_EXIT_WEBHOOK ∧
        (⟨ExitStrategyKind.FALLBACK_EXIT_ALL, 1, 1000, 1000000000, 1000, 0, 1500,
          true, false, true⟩ : ExitPlan).amountToSellUI = 1500 ∧
        (⟨ExitStrategyKind.FALLBACK_EXIT_ALL, 1, 1000, 1000000000, 1000, 0, 1500,
          true, false, true⟩ : ExitPlan).percentageToSell = 1500 / 1000)) :=
  fallback_precedence 1500 "MINT" none ⟨1000000000, 1000, 6, true⟩ _
    (by simp only [calculateExitStrategy, exitBranch, fetchedVirtualBalance,
          findVirtualTokenBalance]
        norm_num)

/-- Claim C3: when the virtual-balance fetch succeeds, a zero virtual balance
yields `FULL_EXIT_ZERO_VIRTUAL` selling the whole actual balance, and
otherwise a requested amount at least the virtual balance yields
`FULL_EXIT_COMPLETE` selling the whole actual balance; the zero check is
decided before the comparison. -/
theorem full_exit_selection (w : ℚ) (mint : String) (sym : Option String)
    (vbs : List VirtualBalanceEntry) (a : ActualBalanceEntry) (plan : ExitPlan)
    (h : calculateExitStrategy w mint sym (some vbs) (some a) = some plan) :
    (findVirtualTokenBalance vbs mint sym = 0 →
        plan.strategy = ExitStrategyKind.FULL_EXIT_ZERO_VIRTUAL ∧
        plan.percentageToSell = 1 ∧ plan.amountToSellUI = a.uiAmount)
    ∧ (findVirtualTokenBalance vbs mint sym ≠ 0 →
        w ≥ findVirtualTokenBalance vbs mint sym →
        plan.strategy = ExitStrategyKind.FULL_EXIT_COMPLETE ∧
        plan.percentageToSell = 1 ∧ plan.amountToSellUI = a.uiAmount) := by
  obtain ⟨-, -, hp⟩ := calculateExitStrategy_inv h
  subst hp
  simp only [mkExitPlan, Option.isSome_some, fetchedVirtualBalance]
  rcases exitBranch_cases true (findVirtualTokenBalance vbs mint sym) w a.uiAmount
    with ⟨hs, -⟩ | ⟨hs, -⟩ | ⟨-, h0, he⟩ | ⟨-, h0, hge, he⟩ | ⟨-, h0, hge, he⟩
  · exact Bool.noConfusion hs
  · exact Bool.noConfusion hs
  · rw [he]
    exact ⟨fun _ => ⟨rfl, rfl, rfl⟩, fun hne _ => absurd h0 hne⟩
  · rw [he]
    exact ⟨fun h0e => absurd h0e h0, fun _ _ => ⟨rfl, rfl, rfl⟩⟩
  · rw [he]
    exact ⟨fun h0e => absurd h0e h0, fun _ hw => absurd hw hge⟩

/-- Witness for C3 at Scenario 2 of the specification. -/
theorem full_exit_selection_witness :
    (findVirtualTokenBalance [⟨"MINT", "TKN", 1200⟩] "MINT" none = 0 →
        (⟨ExitStrategyKind.FULL_EXIT_COMPLETE, 1, 1000, 1000000000, 1000, 1200,
          1500, true, true, false⟩ : ExitPlan).strategy =
            ExitStrategyKind.FULL_EXIT_ZERO_VIRTUAL ∧
        (⟨ExitStrategyKind.FULL_EXIT_COMPLETE, 1, 1000, 1000000000, 1000, 1200,
          1500, true, true, false⟩ : ExitPlan).percentageToSell = 1 ∧
        (⟨ExitStrategyKind.FULL_EXIT_COMPLETE, 1, 1000, 1000000000, 1000, 1200,
          1500, true, true, false⟩ : ExitPlan).amountToSellUI = 1000)
    ∧ (findVirtualTokenBalance [⟨"MINT", "TKN", 1200⟩] "MINT" none ≠ 0 →
        (1500 : ℚ) ≥ findVirtualTokenBalance [⟨"MINT", "TKN", 1200⟩] "MINT" none →
        (⟨ExitStrategyKind.FULL_EXIT_COMPLETE, 1, 1000, 1000000000, 1000, 1200,
          1500, true, true, false⟩ : ExitPlan).strategy =
            ExitStrategyKind.FULL_EXIT_COMPLETE ∧
        (⟨ExitStrategyKind.FULL_EXIT_COMPLETE, 1, 1000, 1000000000, 1000, 1200,
          1500, true, true, false⟩ : ExitPlan).percentageToSell = 1 ∧
        (⟨ExitStrategyKind.FULL_EXIT_COMPLETE, 1, 1000, 1000000000, 1000, 1200,
          1500, true, true, false⟩ : ExitPlan).amountToSellUI = 1000) :=
  full_exit_selection 1500 "MINT" none [⟨"MINT", "TKN", 1200⟩]
    ⟨1000000000, 1000, 6, true⟩ _
    (by simp only [calculateExitStrategy, exitBranch, fetchedVirtualBalance,
          findVirtualTokenBalance]
        norm_num)

/-- Claim C4: every `PARTIAL_EXIT` plan sells the same fraction of the real
position as of the virtual position, and `percentageToSell` equals
requested over virtual; both equalities are exact over the rationals. -/
theorem partial_exit_proportionality (w : ℚ) (mint : String) (sym : Option String)
    (vf : Option (List VirtualBalanceEntry)) (a : ActualBalanceEntry)
    (plan : ExitPlan)
    (h : calculateExitStrategy w mint sym vf (some a) = some plan)
    (hs : plan.strategy = ExitStrategyKind.PARTIAL_EXIT) :
    plan.percentageToSell = plan.webhookAmount / plan.virtualBalance ∧
    plan.amountToSellUI / plan.actualBalance =
      plan.webhookAmount / plan.virtualBalance := by
  obtain ⟨-, hui, hp⟩ := calculateExitStrategy_inv h
  subst hp
  rcases exitBranch_cases vf.isSome (fetchedVirtualBalance vf mint sym) w a.uiAmount
    with ⟨-, -, he⟩ | ⟨-, -, he⟩ | ⟨-, -, he⟩ | ⟨-, -, -, he⟩ | ⟨-, -, -, he⟩
  · simp [mkExitPlan, he] at hs
  · simp [mkExitPlan, he] at hs
  · simp [mkExitPlan, he] at hs
  · simp [mkExitPlan, he] at hs
  · simp only [mkExitPlan, he]
    exact ⟨trivial, mul_div_cancel_left₀ _ hui⟩

/-- Witness for C4 at a partial exit with requested 200 of virtual 800. -/
theorem partial_exit_proportionality_witness :
    (⟨ExitStrategyKind.PARTIAL_EXIT, 1/4, 250, 250000000, 1000, 800, 200,
      false, true, false⟩ : ExitPlan).percentageToSell =
      (⟨ExitStrategyKind.PARTIAL_EXIT, 1/4, 250, 250000000, 1000, 800, 200,
        false, true, false⟩ : ExitPlan).webhookAmount /
      (⟨ExitStrategyKind.PARTIAL_EXIT, 1/4, 250, 250000000, 1000, 800, 200,
        false, true, false⟩ : ExitPlan).virtualBalance ∧
    (⟨ExitStrategyKind.PARTIAL_EXIT, 1/4, 250, 250000000, 1000, 800, 200,
      false, true, false⟩ : ExitPlan).amountToSellUI /
      (⟨ExitStrategyKind.PARTIAL_EXIT, 1/4, 250, 250000000, 1000, 800, 200,
        false, true, false⟩ : ExitPlan).actualBalance =
      (⟨ExitStrategyKind.PARTIAL_EXIT, 1/4, 250, 250000000, 1000, 800, 200,
        false, true, false⟩ : ExitPlan).webhookAmount /
      (⟨ExitStrategyKind.PARTIAL_EXIT, 1/4, 250, 250000000, 1000, 800, 200,
        false, true, false⟩ : ExitPlan).virtualBalance :=
  partial_exit_proportionality 200 "MINT" none (some [⟨"MINT", "MOCK", 800⟩])
    ⟨1000000000, 1000, 6, true⟩ _
    (by simp only [calculateExitStrategy, exitBranch, fetchedVirtualBalance,
          findVirtualTokenBalance]
        norm_num)
    rfl

/-- Claim C8: every exit plan converts the UI amount to raw units by flooring
the product with ten to the power of the decimals recorded on the actual
balance entry. -/
theorem raw_units_floor (w : ℚ) (mint : String) (sym : Option String)
    (vf : Option (List VirtualBalanceEntry)) (a : ActualBalanceEntry)
    (plan : ExitPlan)
    (h : calculateExitStrategy w mint sym vf (some a) = some plan) :
    plan.amountInLamports = ⌊plan.amountToSellUI * (10 : ℚ) ^ a.decimals⌋ := by
  obtain ⟨-, -, hp⟩ := calculateExitStrategy_inv h
  subst hp
  rfl

/-- Witness for C8 at Scenario 4 of the specification. -/
theorem raw_units_floor_witness :
    (⟨ExitStrategyKind.FULL_EXIT_ZERO_VIRTUAL, 1, 1000, 1000000000, 1000, 0, 50,
      true, true, false⟩ : ExitPlan).amountInLamports =
      ⌊(⟨ExitStrategyKind.FULL_EXIT_ZERO_VIRTUAL, 1, 1000, 1000000000, 1000, 0, 50,
        true, true, false⟩ : ExitPlan).amountToSellUI * (10 : ℚ) ^ (6 : ℕ)⌋ :=
  raw_units_floor 50 "MINT" none (some [⟨"MINT", "TKN", 0⟩])
    ⟨1000000000, 1000, 6, true⟩ _
    (by simp only [calculateExitStrategy, exitBranch, fetchedVirtualBalance,
          findVirtualTokenBalance]
        norm_num)

/-- Claim C10: when the virtual fetch fails the returned plan reports a zero
virtual balance with the availability flag cleared and fallback mode set, and
the branch is chosen by the fetch-success flag: a successful fetch of an
actually-zero virtual balance instead selects `FULL_EXIT_ZERO_VIRTUAL` with
fallback mode off. -/
theorem fallback_reporting (w : ℚ) (mint : String) (sym : Option String)
    (a : ActualBalanceEntry) :
    (∀ plan, calculateExitStrategy w mint sym none (some a) = some plan →
        plan.virtualBalance = 0 ∧ plan.virtualBalanceAvailable = false ∧
        plan.fallbackMode = true ∧
        (plan.strategy = ExitStrategyKind.FALLBACK_EXIT_ALL ∨
          plan.strategy = ExitStrategyKind.FALLBACK_EXIT_WEBHOOK))
    ∧ (∀ vbs plan, findVirtualTokenBalance vbs mint sym = 0 →
        calculateExitStrategy w mint sym (some vbs) (some a) = some plan →
        plan.fallbackMode = false ∧
        plan.strategy = ExitStrategyKind.FULL_EXIT_ZERO_VIRTUAL) := by
  constructor
  · intro plan h
    obtain ⟨-, -, hp⟩ := calculateExitStrategy_inv h
    subst hp
    refine ⟨rfl, rfl, rfl, ?_⟩
    simp only [mkExitPlan, Option.isSome_none]
    rcases exitBranch_cases false (fetchedVirtualBalance none mint sym) w a.uiAmount
      with ⟨-, -, he⟩ | ⟨-, -, he⟩ | ⟨hs, -⟩ | ⟨hs, -⟩ | ⟨hs, -⟩
    · rw [he]; exact Or.inl rfl
    · rw [he]; exact Or.inr rfl
    · exact Bool.noConfusion hs
    · exact Bool.noConfusion hs
    · exact Bool.noConfusion hs
  · intro vbs plan h0 h
    obtain ⟨-, -, hp⟩ := calculateExitStrategy_inv h
    subst hp
    refine ⟨rfl, ?_⟩
    simp only [mkExitPlan, Option.isSome_some, fetchedVirtualBalance]
    rcases exitBranch_cases true (findVirtualTokenBalance vbs mint sym) w a.uiAmount
      with ⟨hs, -⟩ | ⟨hs, -⟩ | ⟨-, -, he⟩ | ⟨-, hne, -⟩ | ⟨-, hne, -⟩
    · exact Bool.noConfusion hs
    · exact Bool.noConfusion hs
    · rw [he]
    · exact absurd h0 hne
    · exact absurd h0 hne

/-- Witness for C10: fallback fetch failure with actual balance 500 and
requested 2000. -/
theorem fallback_reporting_witness :
    (⟨ExitStrategyKind.FALLBACK_EXIT_ALL, 1, 500, 500000000, 500, 0, 2000,
      true, false, true⟩ : ExitPlan).virtualBalance = 0 ∧
    (⟨ExitStrategyKind.FALLBACK_EXIT_ALL, 1, 500, 500000000, 500, 0, 2000,
      true, false, true⟩ : ExitPlan).virtualBalanceAvailable = false ∧
    (⟨ExitStrategyKind.FALLBACK_EXIT_ALL, 1, 500, 500000000, 500, 0, 2000,
      true, false, true⟩ : ExitPlan).fallbackMode = true ∧
    ((⟨ExitStrategyKind.FALLBACK_EXIT_ALL, 1, 500, 500000000, 500, 0, 2000,
      true, false, true⟩ : ExitPlan).strategy = ExitStrategyKind.FALLBACK_EXIT_ALL ∨
     (⟨ExitStrategyKind.FALLBACK_EXIT_ALL, 1, 500, 500000000, 500, 0, 2000,
      true, false, true⟩ : ExitPlan).strategy = ExitStrategyKind.FALLBACK_EXIT_WEBHOOK) :=
  (fallback_reporting 2000 "MINT" none ⟨500000000, 500, 6, true⟩).1 _
    (by simp only [calculateExitStrategy, exitBranch, fetchedVirtualBalance,
          findVirtualTokenBalance]
        norm_num)

/-- The pump token heuristic of line 616: the input mint ends in the string
pump, or the lower-cased input symbol contains it. -/
def isPumpFunToken (inputMint inputSymbol : String) : Bool :=
  jsEndsWith inputMint "pump" || jsIncludes (toLowerCase inputSymbol) "pump"

/-- Embedding of the slippage selection of `processAgentTransaction`
(lines 613-630), with `isExit` computed as at line 550; a JavaScript
falsy `data.slippage` (absent or zero) selects the 300 bps default. -/
def selectSlippageBpsAgentTx (inputMint outputMint inputSymbol : String)
    (slippage : Option ℚ) : ℤ :=
  let isExit := isExitTransaction inputMint outputMint
  let isSellingToSOL := outputMint == SOL_MINT
  let isPump := isPumpFunToken inputMint inputSymbol
  if isSellingToSOL then
    if isPump then 1000
    else if isExit then 800
    else 500
  else
    match slippage with
    | some s => if s ≠ 0 then ⌊s * 10000⌋ else 300
    | none => 300

/-- Embedding of the trade-signal slippage selection at line 781. -/
def tradeSignalSlippageBps (slippage : Option ℚ) : ℤ :=
  match slippage with
  | some s => if s ≠ 0 then ⌊s * 10000⌋ else 100
  | none => 100

/-- Counterexample to claim C7 as stated: with a non-native output mint and
an explicit slippage hint of 0 supplied, the code selects the 300 bps default
rather than the converted hint of 0 bps, because a zero hint is falsy. -/
theorem slippage_zero_hint_counterexample :
    selectSlippageBpsAgentTx "AAA" "BBB" "TOK" (some 0) = 300 ∧
    ¬ ((300 : ℤ) = ⌊(0 : ℚ) * 10000⌋) := by
  constructor
  · simp [selectSlippageBpsAgentTx, SOL_MINT]
  · norm_num

/-- Claim C7 (amended): with a native-asset output mint the slippage is
1000 bps for pump-heuristic tokens, else 800 bps for exits, else 500 bps;
with a non-native output mint a present nonzero hint is converted by
flooring its product with 10000, while an absent or zero hint selects
300 bps; the trade-signal flow defaults to 100 bps with no hint. -/
theorem slippage_policy (inputMint outputMint inputSymbol : String)
    (slippage : Option ℚ) :
    (outputMint = SOL_MINT →
      selectSlippageBpsAgentTx inputMint outputMint inputSymbol slippage =
        (if isPumpFunToken inputMint inputSymbol then 1000
         else if isExitTransaction inputMint outputMint then 800
         else 500))
    ∧ (outputMint ≠ SOL_MINT →
        (∀ s, slippage = some s → s ≠ 0 →
          selectSlippageBpsAgentTx inputMint outputMint inputSymbol slippage =
            ⌊s * 10000⌋)
        ∧ ((slippage = none ∨ slippage = some 0) →
          selectSlippageBpsAgentTx inputMint outputMint inputSymbol slippage = 300))
    ∧ (slippage = none → tradeSignalSlippageBps slippage = 100) := by
  refine ⟨?_, ?_, ?_⟩
  · intro ho
    subst ho
    simp [selectSlippageBpsAgentTx]
  · intro ho
    constructor
    · intro s hs hs0
      subst hs
      simp [selectSlippageBpsAgentTx, ho, hs0]
    · rintro (hn | h0)
      · subst hn
        simp [selectSlippageBpsAgentTx, ho]
      · subst h0
        simp [selectSlippageBpsAgentTx, ho]
  · intro hn
    subst hn
    simp [tradeSignalSlippageBps]

/-- Witness for the amended C7: a pump-suffixed mint sold for the native
asset gets 1000 bps. -/
theorem slippage_policy_witness :
    selectSlippageBpsAgentTx "abcpump" SOL_MINT "TOK" none = 1000 := by
  have h := (slippage_policy "abcpump" SOL_MINT "TOK" none).1 rfl
  rw [h]
  decide

/-- Counterexample to claim C9 as stated: a swap from the native mint to the
native mint has the native asset as output, yet `isExitTransaction` returns
false, so the classification is not an if-and-only-if on the output mint
alone. -/
theorem isExitTransaction_iff_counterexample :
    ¬ (isExitTransaction "So11111111111111111111111111111111111111112"
          "So11111111111111111111111111111111111111112" = true ↔
        "So11111111111111111111111111111111111111112" = SOL_MINT) := by
  decide

/-- Claim C9 (amended): `isExitTransaction` returns true exactly when the
output mint is the native-asset identifier and the input mint is not. -/
theorem isExitTransaction_iff (inputMint outputMint : String) :
    isExitTransaction inputMint outputMint = true ↔
      (outputMint = SOL_MINT ∧ inputMint ≠ SOL_MINT) := by
  simp [isExitTransaction]

/-- The fields of the Jupiter order response used by the handlers after
`getSwapOrder` returns (lines 475-486): the optional unsigned transaction
payload, the request id, and the quoted amounts. -/
structure OrderResponse where
  transaction : Option String
  requestId : String
  inAmount : String
  outAmount : String
deriving DecidableEq, Repr

/-- The execution response of the Jupiter execute endpoint (lines 494-507). -/
structure ExecuteResponse where
  status : String
  signature : String
deriving DecidableEq, Repr

/-- The externally visible effects of the order-to-execution tail of a
handler: signing a transaction payload, and submitting a signed blob with a
request id to the execute endpoint. -/
inductive SwapAction
  | signTx (transaction : String)
  | executeTx (signedTransaction : String) (requestId : String)
deriving DecidableEq, Repr

/-- The result fields of `processAgentTransaction` relevant to the swap tail
(lines 648-681). -/
structure AgentSwapOutcome where
  success : Bool
  transactionId : ℤ
  error : Option String
  executionStatus : Option String
  signature : Option String
deriving DecidableEq, Repr

/-- The result fields of `processTradeSignal` relevant to the swap tail
(lines 791-821). -/
structure SignalSwapOutcome where
  success : Bool
  signalId : ℤ
  error : Option String
  executionStatus : Option String
  signature : Option String
deriving DecidableEq, Repr

/-- Embedding of the order-to-execution tail of `processAgentTransaction`
(lines 648-681): with no transaction payload the handler returns the failure
object before any signing or execution call; otherwise it signs, submits,
and propagates status and signature.  The returned list records the external
actions performed, in order. -/
def processAgentTxSwapPhase (transactionId : ℤ) (order : OrderResponse)
    (sign : String → String) (execute : String → String → ExecuteResponse) :
    AgentSwapOutcome × List SwapAction :=
  match order.transaction with
  | none =>
    ({ success := false
       transactionId := transactionId
       error := some "No executable transaction from Jupiter API"
       executionStatus := none
       signature := none }, [])
  | some transaction =>
    let signedTransaction := sign transaction
    let executeResponse := execute signedTransaction order.requestId
    ({ success := true
       transactionId := transactionId
       error := none
       executionStatus := some executeResponse.status
       signature := some executeResponse.signature },
      [SwapAction.signTx transaction,
        SwapAction.executeTx signedTransaction order.requestId])

/-- Embedding of the order-to-execution tail of `processTradeSignal`
(lines 791-821): a missing transaction payload raises an error that the
surrounding catch converts into the failure object, again before any signing
or execution call. -/
def processTradeSignalSwapPhase (signalId : ℤ) (order : OrderResponse)
    (sign : String → String) (execute : String → String → ExecuteResponse) :
    SignalSwapOutcome × List SwapAction :=
  match order.transaction with
  | none =>
    ({ success := false
       signalId := signalId
       error := some "No transaction received from Jupiter API"
       executionStatus := none
       signature := none }, [])
  | some transaction =>
    let signedTransaction := sign transaction
    let executeResponse := execute signedTransaction order.requestId
    ({ success := true
       signalId := signalId
       error := none
       executionStatus := some executeResponse.status
       signature := some executeResponse.signature },
      [SwapAction.signTx transaction,
        SwapAction.executeTx signedTransaction order.requestId])

/-- Claim C5: in both handler flows, an order response with no transaction
payload yields a failed outcome and an empty action trace, so neither
signing nor execution submission is attempted. -/
theorem no_route_terminates (transactionId signalId : ℤ) (order : OrderResponse)
    (sign : String → String) (execute : String → String → ExecuteResponse)
    (h : order.transaction = none) :
    (processAgentTxSwapPhase transactionId order sign execute).1.success = false ∧
    (processAgentTxSwapPhase transactionId order sign execute).2 = [] ∧
    (processTradeSignalSwapPhase signalId order sign execute).1.success = false ∧
    (processTradeSignalSwapPhase signalId order sign execute).2 = [] := by
  simp [processAgentTxSwapPhase, processTradeSignalSwapPhase, h]

/-- Witness for C5 at a concrete routeless order response. -/
theorem no_route_terminates_witness :
    (processAgentTxSwapPhase 456 ⟨none, "req-1", "500", "490"⟩ id
        (fun _ _ => ⟨"success", "sig"⟩)).1.success = false ∧
    (processAgentTxSwapPhase 456 ⟨none, "req-1", "500", "490"⟩ id
        (fun _ _ => ⟨"success", "sig"⟩)).2 = [] ∧
    (processTradeSignalSwapPhase 123 ⟨none, "req-1", "500", "490"⟩ id
        (fun _ _ => ⟨"success", "sig"⟩)).1.success = false ∧
    (processTradeSignalSwapPhase 123 ⟨none, "req-1", "500", "490"⟩ id
        (fun _ _ => ⟨"success", "sig"⟩)).2 = [] :=
  no_route_terminates 456 123 ⟨none, "req-1", "500", "490"⟩ id
    (fun _ _ => ⟨"success", "sig"⟩) rfl

/-- One entry of the bulk token list scanned by `getTokenDecimals`
(lines 293-301). -/
structure TokenListEntry where
  address : String
  decimals : ℕ
deriving DecidableEq, Repr

/-- Embedding of `getTokenDecimals` (lines 278-322): try the per-token
metadata endpoint, then a linear scan of the bulk token list, then the
chain account-info query, each failure swallowed; default to 6 when all
three yield nothing. -/
def getTokenDecimals (tokenMint : String) (metadataDecimals : Option ℕ)
    (tokenListResponse : Option (List TokenListEntry))
    (rpcDecimals : Option ℕ) : ℕ :=
  match metadataDecimals with
  | some decimals => decimals
  | none =>
    let fromList : Option ℕ :=
      match tokenListResponse with
      | some allTokens =>
        (allTokens.find? (fun t => t.address == tokenMint)).map
          (fun t => t.decimals)
      | none => none
    match fromList with
    | some decimals => decimals
    | none =>
      match rpcDecimals with
      | some decimals => decimals
      | none => 6

/-- Claim C6: `getTokenDecimals` is total, returns the default 6 when the
three sources all fail, and stays within [0,255] whenever each source
honours the documented unsigned-byte range of mint decimals. -/
theorem resolveDecimals_total_bounded (tokenMint : String)
    (metadataDecimals : Option ℕ)
    (tokenListResponse : Option (List TokenListEntry))
    (rpcDecimals : Option ℕ)
    (hm : ∀ d, metadataDecimals = some d → d ≤ 255)
    (hl : ∀ ts, tokenListResponse = some ts → ∀ t ∈ ts, t.decimals ≤ 255)
    (hr : ∀ d, rpcDecimals = some d → d ≤ 255) :
    getTokenDecimals tokenMint metadataDecimals tokenListResponse rpcDecimals ≤ 255 ∧
    (metadataDecimals = none →
      (∀ ts, tokenListResponse = some ts →
        ts.find? (fun t => t.address == tokenMint) = none) →
      rpcDecimals = none →
      getTokenDecimals tokenMint metadataDecimals tokenListResponse rpcDecimals = 6) := by
  constructor
  · rcases metadataDecimals with _ | d
    · rcases tokenListResponse with _ | ts
      · rcases rpcDecimals with _ | d
        · simp [getTokenDecimals]
        · simpa [getTokenDecimals] using hr d rfl
      · rcases hfind : ts.find? (fun t => t.address == tokenMint) with _ | t
        · rcases rpcDecimals with _ | d
          · simp [getTokenDecimals, hfind]
          · simpa [getTokenDecimals, hfind] using hr d rfl
        · simpa [getTokenDecimals, hfind] using
            hl ts rfl t (List.mem_of_find?_eq_some hfind)
    · simpa [getTokenDecimals] using hm d rfl
  · intro hm0 hfind hr0
    subst hm0
    subst hr0
    rcases tokenListResponse with _ | ts
    · simp [getTokenDecimals]
    · simp [getTokenDecimals, hfind ts rfl]

/-- Witness for C6: all three sources failing yields the default 6, inside
the byte range. -/
theorem resolveDecimals_total_bounded_witness :
    getTokenDecimals "MINT" none none none ≤ 255 ∧
    ((none : Option ℕ) = none →
      (∀ ts, (none : Option (List TokenListEntry)) = some ts →
        ts.find? (fun t => t.address == "MINT") = none) →
      (none : Option ℕ) = none →
      getTokenDecimals "MINT" none none none = 6) :=
  resolveDecimals_total_bounded "MINT" none none none
    (fun _ h => Option.noConfusion h)
    (fun _ h => Option.noConfusion h)
    (fun _ h => Option.noConfusion h)

end Nexgent
